import Mathlib

/-!
Verification development for the marketing-compliance review tool
(src/marketing-compliance-app.py). The submission store, the sample data
generator, the requirement catalog, the intake handler and the dashboard
metric computations are shallowly embedded below; dates are modelled as day
indexes (Int), pandas string dates versus datetime values are modelled with
an explicit representation tag, and Python floats that the claims exercise
only at exact values are modelled as rationals.
-/

/-- A stored date value. The generator writes dates as `%Y-%m-%d` strings
(`rawStr`); `pd.to_datetime` converts a column to timestamp values
(`stamp`). Both carry the denoted day index. -/
inductive DateVal where
  | rawStr (day : Int)
  | stamp (day : Int)
deriving DecidableEq

/-- The day index denoted by a stored date value. -/
def DateVal.day : DateVal → Int
  | .rawStr d => d
  | .stamp d => d

/-- `pd.to_datetime` applied to one cell: a string date is parsed to a
timestamp with the same day; a timestamp is left as is. -/
def toDatetime (d : DateVal) : DateVal := .stamp d.day

/-- One row of the submission table (`st.session_state.data`). The
`submission_id` string `SUB-<year>-<seq>` is carried in structured form as
`submission_year` and `submission_seq` (the generator zero-pads the
sequence to four digits, so within the generated data the string order of
ids agrees with the numeric order of sequences). -/
structure Submission where
  submission_year : Nat
  submission_seq : Nat
  title : String
  submission_date : DateVal
  material_type : String
  source : String
  status : String
  page_count : Nat
  assigned_to : Option String
  review_date : Option DateVal
  compliance_score : Option Int
  flags : Option Int
  review_time_hours : Option ℚ
deriving DecidableEq

/-- The material type list of `generate_sample_data`. -/
def materialTypes : List String :=
  ["Whitepaper", "Blog Post", "Email", "Social Post", "Webpage",
   "Video", "Podcast", "Presentation", "PR Article"]

/-- The source list of `generate_sample_data`. -/
def sourcesList : List String :=
  ["Corporate Marketing", "Third Party", "RFP/RFI Response"]

/-- The status list of `generate_sample_data`. -/
def statusesList : List String :=
  ["Pending", "In Review", "Approved", "Rejected", "Needs Revision"]

/-- The reviewer list of `generate_sample_data`. -/
def reviewersList : List String :=
  ["Amanda H.", "Michael T.", "Sarah L.", "David R.", "Jessica W."]

/-- `random.randint(a, b)` (inclusive bounds): an arbitrary draw `x` is
reduced into the range `[a, b]`. -/
def randint (a b x : Nat) : Nat := a + x % (b - a + 1)

/-- `random.choice(l)` / one draw of `random.choices(l, weights)`: every
listed element has positive weight in the source, so the support is the
whole list; an arbitrary draw `x` selects an index. -/
def choiceStr (l : List String) (x : Nat) : String := l.getD (x % l.length) ""

/-- The randomness consumed for one generated row. Fields correspond, in
order, to the random draws of `generate_sample_data`: the date offset
`randint(0, 120)`, the `material_type`, `source` and `status` choices, the
`page_count` draw `randint(1, 60)`, the SECOND, independent status draw
that the `assigned_to` comprehension conditions on, the reviewer choice,
the `review_date` presence coin (`random.random() > 0.3`) and offset
`randint(1, 7)`, the `compliance_score` branch coin
(`random.random() > 0.2`) and draw, the `flags` draw `randint(0, 5)`, and
the `review_time_hours` presence coin and value. -/
structure RowRand where
  dateOff : Nat
  materialIdx : Nat
  sourceIdx : Nat
  statusIdx : Nat
  pageDraw : Nat
  assignStatusIdx : Nat
  reviewerIdx : Nat
  reviewPresent : Bool
  reviewOff : Nat
  scoreHigh : Bool
  scoreDraw : Nat
  flagsDraw : Nat
  hoursPresent : Bool
  hoursVal : ℚ
deriving DecidableEq

/-- Row `i` (zero-based) of `generate_sample_data`, given the day index of
`current_date` and the randomness for this row. Mirrors lines 92-111 of
the source: note that `assigned_to` is conditioned on `assignStatusIdx`,
a status draw taken independently of the `status` column
(`random.choices` is called a second time inside the `assigned_to`
comprehension). -/
def sampleRow (today : Int) (i : Nat) (r : RowRand) : Submission :=
  let d : Int := today - (randint 0 120 r.dateOff : Nat)
  { submission_year := 2024
    submission_seq := i + 1
    title := "Marketing Material " ++ toString (i + 1)
    submission_date := .rawStr d
    material_type := choiceStr materialTypes r.materialIdx
    source := choiceStr sourcesList r.sourceIdx
    status := choiceStr statusesList r.statusIdx
    page_count := randint 1 60 r.pageDraw
    assigned_to :=
      if choiceStr statusesList r.assignStatusIdx ≠ "Pending" then
        some (choiceStr reviewersList r.reviewerIdx)
      else none
    review_date :=
      if r.reviewPresent then some (.rawStr (d + (randint 1 7 r.reviewOff : Nat)))
      else none
    compliance_score :=
      some (if r.scoreHigh then (randint 70 100 r.scoreDraw : Int)
            else (randint 40 69 r.scoreDraw : Int))
    flags := some (randint 0 5 r.flagsDraw : Int)
    review_time_hours := if r.hoursPresent then some r.hoursVal else none }

/-- `generate_sample_data`: 300 rows, row `i` built from the randomness
stream `ρ i`. -/
def generateSampleData (today : Int) (ρ : Nat → RowRand) : List Submission :=
  (List.range 300).map (fun i => sampleRow today i (ρ i))

/-- A row randomness record whose status draw selects `Pending` (index 0)
while the independent status draw of the `assigned_to` comprehension
selects `Approved` (index 2). -/
def rowRandPendingAssigned : RowRand :=
  { dateOff := 0, materialIdx := 0, sourceIdx := 0, statusIdx := 0,
    pageDraw := 0, assignStatusIdx := 2, reviewerIdx := 0,
    reviewPresent := false, reviewOff := 0, scoreHigh := true,
    scoreDraw := 0, flagsDraw := 0, hoursPresent := false, hoursVal := 0 }

/-- C1: the claim states that a generated row with status `Pending` has
`assigned_to` absent. The source conditions `assigned_to` on a second,
independent `random.choices` status draw (line 100-101), not on the row's
own status, so a row whose own status draw is `Pending` while the
independent draw is not carries a reviewer: the exhibited randomness
produces a row with status `Pending` and `assigned_to = some "Amanda H."`.
This contradicts the data-model invariant the spec states and that the
conditional in the comprehension is evidently meant to enforce. -/
theorem c1_generator_pending_row_with_reviewer :
    (sampleRow 0 0 rowRandPendingAssigned).status = "Pending" ∧
    (sampleRow 0 0 rowRandPendingAssigned).assigned_to = some "Amanda H." := by
  constructor <;> rfl

/-- C10: every generated row has `compliance_score` present with an integer
value between 40 and 100, and `flags` present with an integer value
between 0 and 5, for every choice of randomness. -/
theorem c10_generator_score_flags_ranges (today : Int) (i : Nat) (r : RowRand) :
    (∃ n : Int, (sampleRow today i r).compliance_score = some n ∧ 40 ≤ n ∧ n ≤ 100) ∧
    (∃ m : Int, (sampleRow today i r).flags = some m ∧ 0 ≤ m ∧ m ≤ 5) := by
  have h31 := Nat.mod_lt r.scoreDraw (y := 31) (by omega)
  have h30 := Nat.mod_lt r.scoreDraw (y := 30) (by omega)
  have h6 := Nat.mod_lt r.flagsDraw (y := 6) (by omega)
  refine ⟨⟨_, rfl, ?_, ?_⟩, ⟨_, rfl, ?_, ?_⟩⟩ <;>
    · simp only [randint]
      push_cast
      omega

/-- The Dashboard page aliases the stored table (`df = st.session_state.data`)
and then assigns `df['submission_date'] = pd.to_datetime(df['submission_date'])`
(line 173), converting the stored string dates to timestamps in place. This
is the effect of the dashboard computation on the store; all further metric
computations on the page only read the table. -/
def dashboardDateFix (store : List Submission) : List Submission :=
  store.map (fun r => { r with submission_date := toDatetime r.submission_date })

/-- A concrete submission row used as a base for examples and as a `getD`
default. -/
def baseSub : Submission :=
  { submission_year := 2024, submission_seq := 1, title := "T",
    submission_date := .rawStr 0, material_type := "Email",
    source := "Third Party", status := "Pending", page_count := 1,
    assigned_to := none, review_date := none, compliance_score := none,
    flags := none, review_time_hours := none }

/-- `getD` commutes with `map` at indexes below the length. -/
theorem map_getD_of_lt {α β : Type} (f : α → β) (l : List α) (i : Nat)
    (d : α) (e : β) (h : i < l.length) :
    (l.map f).getD i e = f (l.getD i d) := by
  induction l generalizing i with
  | nil => simp at h
  | cons a t ih =>
    cases i with
    | zero => simp
    | succ n =>
      simp only [List.map_cons, List.getD_cons_succ]
      exact ih n (by simpa using h)

/-- C4 counterexample: the claim states that computing the dashboard metrics
leaves the store unchanged, including `submission_date`. It is false: on a
store holding one row with a string date, the dashboard's in-place
`pd.to_datetime` column assignment replaces the string date by a timestamp,
so the resulting store differs from the input. -/
theorem c4_dashboard_mutates_store : dashboardDateFix [baseSub] ≠ [baseSub] := by
  decide

/-- C4 amended: computing the dashboard metrics changes no field of any
stored row other than `submission_date`, keeps the number of rows, and
replaces each `submission_date` by the timestamp denoting the same day. -/
theorem c4_dashboard_changes_only_date_representation
    (store : List Submission) (i : Nat) (h : i < store.length) :
    (dashboardDateFix store).length = store.length ∧
    (dashboardDateFix store).getD i baseSub =
      { store.getD i baseSub with
        submission_date := DateVal.stamp (store.getD i baseSub).submission_date.day } := by
  refine ⟨by simp [dashboardDateFix], ?_⟩
  rw [dashboardDateFix, map_getD_of_lt _ store i baseSub _ h]
  rfl

/-- C4 witness: the amended statement at a one-row store and index 0. -/
theorem c4_dashboard_changes_only_date_representation_witness :
    (dashboardDateFix [baseSub]).length = [baseSub].length ∧
    (dashboardDateFix [baseSub]).getD 0 baseSub =
      { ([baseSub] : List Submission).getD 0 baseSub with
        submission_date :=
          DateVal.stamp (([baseSub] : List Submission).getD 0 baseSub).submission_date.day } :=
  c4_dashboard_changes_only_date_representation [baseSub] 0 (by decide)

/-- Compliance rate (line 205):
`len(df[df['compliance_score'] >= 80]) / len(df) * 100 if len(df) > 0 else 0`.
A missing score compares false in pandas and is excluded from the
numerator. -/
def complianceRate (rows : List Submission) : ℚ :=
  if 0 < rows.length then
    ((rows.filter (fun r =>
        match r.compliance_score with
        | some c => decide (80 ≤ c)
        | none => false)).length : ℚ) / (rows.length : ℚ) * 100
  else 0

/-- First-pass approval rate (line 540):
`len(period_df[period_df['status'] == 'Approved']) / len(period_df) * 100`
guarded by `if len(period_df) > 0 else 0`. -/
def firstPassRate (rows : List Submission) : ℚ :=
  if 0 < rows.length then
    ((rows.filter (fun r => decide (r.status = "Approved"))).length : ℚ) /
      (rows.length : ℚ) * 100
  else 0

/-- Multi-round rate (line 543):
`len(period_df[period_df['flags'] > 2]) / len(period_df) * 100` guarded by
`if len(period_df) > 0 else 0`; a missing flags value compares false. -/
def multiRoundRate (rows : List Submission) : ℚ :=
  if 0 < rows.length then
    ((rows.filter (fun r =>
        match r.flags with
        | some f => decide (2 < f)
        | none => false)).length : ℚ) / (rows.length : ℚ) * 100
  else 0

/-- C8: on an empty store, and on any period holding zero rows, each rate
metric (compliance rate, first-pass approval rate, multi-round rate)
evaluates to 0: the guard `len(...) > 0` short-circuits the division. -/
theorem c8_rates_zero_on_empty (rows : List Submission) (h : rows.length = 0) :
    complianceRate rows = 0 ∧ firstPassRate rows = 0 ∧ multiRoundRate rows = 0 := by
  simp [complianceRate, firstPassRate, multiRoundRate, h]

/-- C8 witness: the three rates on the empty store. -/
theorem c8_rates_zero_on_empty_witness :
    ([] : List Submission).length = 0 ∧
    complianceRate [] = 0 ∧ firstPassRate [] = 0 ∧ multiRoundRate [] = 0 :=
  ⟨rfl, c8_rates_zero_on_empty [] rfl⟩

/-- The rows whose `review_time_hours` is present
(`period_df[period_df['review_time_hours'].notna()]`). -/
def presentHours (rows : List Submission) : List Submission :=
  rows.filter (fun r => r.review_time_hours.isSome)

/-- Sum of `review_time_hours` over the rows where it is present. -/
def hoursSum (rows : List Submission) : ℚ :=
  ((presentHours rows).map (fun r => r.review_time_hours.getD 0)).sum

/-- Sum of `page_count` over the rows whose `review_time_hours` is
present. -/
def pagesSumPresent (rows : List Submission) : ℚ :=
  ((presentHours rows).map (fun r => (r.page_count : ℚ))).sum

/-- Mean of `review_time_hours` over the rows where it is present
(line 530); `none` models the pandas `NaN` mean of an empty selection. -/
def avgReviewTime (rows : List Submission) : Option ℚ :=
  if (presentHours rows).length = 0 then none
  else some (hoursSum rows / ((presentHours rows).length : ℚ))

/-- Pages per hour (lines 533-537): when `avg_time > 0` (a `NaN` mean
compares false) the quotient of the two present-row sums, else 0. -/
def pagesPerHour (rows : List Submission) : ℚ :=
  match avgReviewTime rows with
  | some a => if 0 < a then pagesSumPresent rows / hoursSum rows else 0
  | none => 0

/-- The pages-per-hour formula as the spec words it: the quotient of the
present-row sums, defined as 0 when the denominator is 0. -/
def pagesPerHourSpec (rows : List Submission) : ℚ :=
  if hoursSum rows = 0 then 0 else pagesSumPresent rows / hoursSum rows

/-- The first example row of the claim: `page_count` 10,
`review_time_hours` 2.0. -/
def exRowA : Submission := { baseSub with page_count := 10, review_time_hours := some 2 }

/-- The second example row of the claim: `page_count` 5,
`review_time_hours` absent. -/
def exRowB : Submission := { baseSub with page_count := 5, review_time_hours := none }

/-- C7: the pages-per-hour metric equals the spec formula — the quotient of
the page-count sum and the hours sum over the rows whose
`review_time_hours` is present, 0 when the denominator is 0 — for every
row list whose present review hours are nonnegative (all review hours the
program ever stores are positive); and on the claim's example store it
equals 5. -/
theorem c7_pages_per_hour_matches_spec :
    (∀ rows : List Submission, (∀ r ∈ rows, 0 ≤ r.review_time_hours.getD 0) →
      pagesPerHour rows = pagesPerHourSpec rows) ∧
    pagesPerHour [exRowA, exRowB] = 5 := by
  constructor
  · intro rows h
    have hnn : 0 ≤ hoursSum rows := by
      apply List.sum_nonneg
      intro x hx
      simp only [List.mem_map] at hx
      obtain ⟨r, hr, rfl⟩ := hx
      exact h r (List.mem_of_mem_filter hr)
    by_cases hc : (presentHours rows).length = 0
    · have hs : hoursSum rows = 0 := by
        have he : presentHours rows = [] := List.length_eq_zero.mp hc
        simp [hoursSum, he]
      simp [pagesPerHour, avgReviewTime, pagesPerHourSpec, hc, hs]
    · have hlpos : (0 : ℚ) < ((presentHours rows).length : ℚ) := by
        exact_mod_cast Nat.pos_of_ne_zero hc
      simp only [pagesPerHour, avgReviewTime, if_neg hc]
      by_cases hz : hoursSum rows = 0
      · simp [hz, pagesPerHourSpec]
      · have hpos : 0 < hoursSum rows := lt_of_le_of_ne hnn (Ne.symm hz)
        have hdiv : 0 < hoursSum rows / ((presentHours rows).length : ℚ) :=
          div_pos hpos hlpos
        simp [hdiv, pagesPerHourSpec, hz]
  · have hp : presentHours [exRowA, exRowB] = [exRowA] := by
      simp [presentHours, exRowA, exRowB, baseSub]
    have hs : hoursSum [exRowA, exRowB] = 2 := by
      rw [hoursSum, hp]
      simp [exRowA, baseSub]
    have hps : pagesSumPresent [exRowA, exRowB] = 10 := by
      rw [pagesSumPresent, hp]
      simp [exRowA, baseSub]
    rw [pagesPerHour, avgReviewTime, hp, hs, hps]
    norm_num

/-- C7 witness: the general statement applied to the claim's example
store. -/
theorem c7_pages_per_hour_matches_spec_witness :
    pagesPerHour [exRowA, exRowB] = pagesPerHourSpec [exRowA, exRowB] :=
  c7_pages_per_hour_matches_spec.1 [exRowA, exRowB] (by
    intro r hr
    rcases hr with _ | ⟨_, hr⟩
    · norm_num [exRowA, baseSub]
    · rcases hr with _ | ⟨_, hr⟩
      · norm_num [exRowB, baseSub]
      · cases hr)

/-- `generate_requirements`: the static catalog from category name to the
ordered requirement list. -/
def generate_requirements : List (String × List String) :=
  [("General",
    ["No misleading statements about product performance",
     "Clear disclosure of fees and expenses",
     "No promises of specific returns",
     "Balanced presentation of risks and benefits",
     "No guarantees of future performance",
     "Appropriate disclaimers included",
     "Compliant with regulatory guidelines"]),
   ("Third Party",
    ["Clear attribution of source",
     "Written permission obtained",
     "No alteration of original content meaning",
     "Compliant with GGTC co-branding guidelines",
     "Dated within last 12 months"]),
   ("Corporate Marketing",
    ["Approved by department head",
     "Compliant with brand guidelines",
     "Contains required legal disclaimers",
     "Referenced data is current and accurate",
     "Appropriate for target audience"]),
   ("RFP/RFI Response",
    ["All statements factually accurate",
     "Product capabilities accurately represented",
     "No forward-looking statements without disclaimers",
     "Claims supported by documentation",
     "All metrics and statistics verified"])]

/-- `st.session_state.requirements.get(key, [])`: dictionary lookup with the
empty list as default. -/
def catalogGet (key : String) : List String :=
  ((generate_requirements.find? (fun p => p.1 = key)).map Prod.snd).getD []

/-- The first word of a string: `s.split(" ")[0]`, the characters before
the first space (the whole string when it has no space). -/
def firstWord (s : String) : String := String.mk (s.data.takeWhile (fun c => c ≠ ' '))

/-- The requirement list the Submit Request page shows for a source
(lines 669-672): `requirements.get(source.split(" ")[0], [])` appended to
the General list. -/
def shownRequirements (source : String) : List String :=
  catalogGet "General" ++ catalogGet (firstWord source)

/-- C5: the claim states the shown requirements are the General list
followed by the selected source's own catalog list, so they differ by
source. The source code looks the catalog up at `source.split(" ")[0]` —
`Corporate`, `Third`, `RFP/RFI` — none of which is a catalog key, so for
every source the lookup defaults to the empty list, every source shows
exactly the 7 General requirements, and the per-source catalog entries
(each nonempty) are never shown. The lookup contradicts the page's own
intent of showing the requirements for the selected source; the per-source
catalog lists are dead data under this code. -/
theorem c5_requirements_lookup_ignores_source :
    shownRequirements "Corporate Marketing" = catalogGet "General" ∧
    shownRequirements "Third Party" = catalogGet "General" ∧
    shownRequirements "RFP/RFI Response" = catalogGet "General" ∧
    catalogGet "Third Party" ≠ [] ∧
    shownRequirements "Third Party" ≠ catalogGet "General" ++ catalogGet "Third Party" := by
  refine ⟨?_, ?_, ?_, ?_, ?_⟩ <;> decide

/-- Process state: the submission store plus the session counter
`st.session_state.current_id`. -/
structure AppState where
  store : List Submission
  currentId : Nat
deriving DecidableEq

/-- The inputs of one press of the Submit Request button: title, material
type, source, page count, the opaque uploaded-content handle, the flag
list of a pre-check run in the same interaction (absent when the pre-check
did not run), and the submission day. -/
structure SubmitArgs where
  title : String
  material_type : String
  source : String
  page_count : Nat
  uploadedFile : Option Unit
  preFlags : Option (List String)
  todayDay : Int
deriving DecidableEq

/-- The two distinct intake validation errors: missing title
("Please provide a title for your submission.") and missing upload
("Please upload a file for review."). -/
inductive SubmitError where
  | missingTitle
  | missingUpload
deriving DecidableEq

/-- The value of the `flags` column the submit handler stores:
`len(flags) if 'flags' in locals() else 0`. -/
def preFlagCount : Option (List String) → Int
  | some l => l.length
  | none => 0

/-- The `new_submission` record of the submit handler (lines 727-740). -/
def intakeRec (st : AppState) (a : SubmitArgs) : Submission :=
  { submission_year := 2024
    submission_seq := st.currentId
    title := a.title
    submission_date := .rawStr a.todayDay
    material_type := a.material_type
    source := a.source
    status := "Pending"
    page_count := a.page_count
    assigned_to := none
    review_date := none
    compliance_score := none
    flags := some (preFlagCount a.preFlags)
    review_time_hours := none }

/-- The submit handler (lines 718-750): rejects an empty title, then a
missing upload; otherwise appends `new_submission` to the store,
increments `current_id` and reports the new id
`SUB-2024-<current_id:04d>` (returned as the year/sequence pair). -/
def submitRequest (st : AppState) (a : SubmitArgs) :
    Except SubmitError (AppState × Nat × Nat) :=
  if a.title = "" then .error .missingTitle
  else if a.uploadedFile = none then .error .missingUpload
  else
    .ok ({ store := st.store ++ [intakeRec st a], currentId := st.currentId + 1 },
         2024, st.currentId)

/-- An empty store with the counter at 1. -/
def st0 : AppState := { store := [], currentId := 1 }

/-- A valid intake call: non-empty title, present upload handle, no
pre-check run. -/
def args0 : SubmitArgs :=
  { title := "Q1 Flyer", material_type := "Email", source := "Third Party",
    page_count := 3, uploadedFile := some (), preFlags := none, todayDay := 10 }

/-- C2 counterexample: the claim states that a valid intake call creates a
record with all five review fields absent. The handler stores
`flags = len(flags) if 'flags' in locals() else 0`, an integer, never an
absent value: the exhibited valid call (no pre-check run) appends a record
whose `flags` is `some 0`, not `none`. -/
theorem c2_intake_flags_not_absent :
    submitRequest st0 args0 =
      .ok ({ store := [intakeRec st0 args0], currentId := 2 }, 2024, 1) ∧
    (intakeRec st0 args0).flags = some 0 ∧ some (0 : Int) ≠ (none : Option Int) := by
  refine ⟨rfl, rfl, by decide⟩

/-- C2 amended: a valid intake call (non-empty title, present content
handle) appends exactly one record to the store, with status `Pending`,
with `assigned_to`, `review_date`, `compliance_score` and
`review_time_hours` absent and `flags` set to the pre-check flag count (0
when the pre-check was not run), increments the session counter, and
returns the new id, whose sequence number is the counter value. -/
theorem c2_intake_appends_pending_record (st : AppState) (a : SubmitArgs)
    (ht : ¬a.title = "") (hf : ¬a.uploadedFile = none) :
    submitRequest st a =
      .ok ({ store := st.store ++ [intakeRec st a], currentId := st.currentId + 1 },
           2024, st.currentId) ∧
    (intakeRec st a).status = "Pending" ∧
    (intakeRec st a).assigned_to = none ∧
    (intakeRec st a).review_date = none ∧
    (intakeRec st a).compliance_score = none ∧
    (intakeRec st a).review_time_hours = none ∧
    (intakeRec st a).flags = some (preFlagCount a.preFlags) ∧
    (intakeRec st a).submission_year = 2024 ∧
    (intakeRec st a).submission_seq = st.currentId ∧
    (intakeRec st a).title = a.title := by
  refine ⟨?_, rfl, rfl, rfl, rfl, rfl, rfl, rfl, rfl, rfl⟩
  rw [submitRequest, if_neg ht, if_neg hf]

/-- C2 witness: the amended statement at the concrete valid call. -/
theorem c2_intake_appends_pending_record_witness :
    submitRequest st0 args0 =
      .ok ({ store := st0.store ++ [intakeRec st0 args0], currentId := st0.currentId + 1 },
           2024, st0.currentId) ∧
    (intakeRec st0 args0).status = "Pending" ∧
    (intakeRec st0 args0).assigned_to = none ∧
    (intakeRec st0 args0).review_date = none ∧
    (intakeRec st0 args0).compliance_score = none ∧
    (intakeRec st0 args0).review_time_hours = none ∧
    (intakeRec st0 args0).flags = some (preFlagCount args0.preFlags) ∧
    (intakeRec st0 args0).submission_year = 2024 ∧
    (intakeRec st0 args0).submission_seq = st0.currentId ∧
    (intakeRec st0 args0).title = args0.title :=
  c2_intake_appends_pending_record st0 args0 (by decide) (by decide)

/-- The assignment failure: `NotFoundError`. -/
inductive AssignError where
  | notFound
deriving DecidableEq

/-- Modelled from the spec: the Review Queue page and its assignment
handler are absent from the source tree (src/marketing-compliance-app.py
ends after the Submit Request page, though the sidebar offers the page).
Spec sections 4.3 and 6 define `assign_reviewer(id, reviewer)`: it fails
with `NotFoundError` when no submission has the id, otherwise it mutates
the matching submission, setting `assigned_to := reviewer` and
`status := "In Review"`. The result pairs the store after the call with
the optional error; on error the store is returned unchanged. The id is
the year/sequence pair. -/
def assign_reviewer (store : List Submission) (y s : Nat) (reviewer : String) :
    List Submission × Option AssignError :=
  if store.any (fun r => decide (r.submission_year = y ∧ r.submission_seq = s)) then
    (store.map (fun r =>
      if r.submission_year = y ∧ r.submission_seq = s then
        { r with assigned_to := some reviewer, status := "In Review" }
      else r), none)
  else (store, some .notFound)

/-- `getD` at an index below the length is a member of the list. -/
theorem getD_mem_of_lt {α : Type} (l : List α) (i : Nat) (d : α)
    (h : i < l.length) : l.getD i d ∈ l := by
  induction l generalizing i with
  | nil => simp at h
  | cons a t ih =>
    cases i with
    | zero => simp
    | succ n =>
      simp only [List.getD_cons_succ]
      exact List.mem_cons_of_mem a (ih n (by simpa using h))

/-- C3: `assign_reviewer` on an id no stored submission carries fails with
`NotFoundError` and leaves the store unchanged; on an id whose submission
has status `Pending` it sets that submission's `assigned_to` to the given
reviewer and its status to `In Review`. -/
theorem c3_assign_reviewer_spec (store : List Submission) (y s : Nat)
    (reviewer : String) :
    ((∀ r ∈ store, ¬(r.submission_year = y ∧ r.submission_seq = s)) →
      assign_reviewer store y s reviewer = (store, some .notFound)) ∧
    (∀ i, i < store.length →
      (store.getD i baseSub).submission_year = y →
      (store.getD i baseSub).submission_seq = s →
      (store.getD i baseSub).status = "Pending" →
      (assign_reviewer store y s reviewer).1.getD i baseSub =
        { store.getD i baseSub with
          assigned_to := some reviewer, status := "In Review" }) := by
  constructor
  · intro h
    have hany :
        store.any (fun r => decide (r.submission_year = y ∧ r.submission_seq = s)) = false := by
      rw [List.any_eq_false]
      intro r hr
      simpa using h r hr
    rw [assign_reviewer, hany]
    simp
  · intro i hi hy hs hp
    have hany :
        store.any (fun r => decide (r.submission_year = y ∧ r.submission_seq = s)) = true :=
      List.any_eq_true.mpr ⟨store.getD i baseSub, getD_mem_of_lt store i baseSub hi,
        by simp only [decide_eq_true_eq]; exact ⟨hy, hs⟩⟩
    rw [assign_reviewer, hany]
    simp only [if_true]
    rw [map_getD_of_lt _ store i baseSub _ hi, if_pos ⟨hy, hs⟩]

/-- A stored pending submission with sequence number 7. -/
def p0 : Submission := { baseSub with submission_seq := 7 }

/-- C3 witness: the not-found branch on the empty store and the update
branch on a one-row store holding a pending submission. -/
theorem c3_assign_reviewer_spec_witness :
    assign_reviewer [] 2024 7 "Sarah L." = ([], some .notFound) ∧
    (assign_reviewer [p0] 2024 7 "Sarah L.").1.getD 0 baseSub =
      { ([p0] : List Submission).getD 0 baseSub with
        assigned_to := some "Sarah L.", status := "In Review" } :=
  ⟨(c3_assign_reviewer_spec [] 2024 7 "Sarah L.").1 (by simp),
   (c3_assign_reviewer_spec [p0] 2024 7 "Sarah L.").2 0 (by decide) (by decide)
     (by decide) (by decide)⟩

/-- The largest sequence number among the stored submissions, 0 when the
store is empty. Models
`int(st.session_state.data['submission_id'].str.split('-').str[2].max())`
(line 158): the initial store holds exactly the generated sequences
0001..0300, all zero-padded to four digits, so the pandas string maximum
is the numeric maximum. -/
def maxSeq (l : List Submission) : Nat :=
  l.foldr (fun r m => max r.submission_seq m) 0

/-- The largest sequence number among the stored submissions whose id has
the given year prefix. -/
def maxSeqInYear (y : Nat) (l : List Submission) : Nat :=
  maxSeq (l.filter (fun r => decide (r.submission_year = y)))

/-- The session state after initialization (lines 151-159): the generated
sample data, and `current_id` set to the maximal existing sequence number
plus one. -/
def initState (today : Int) (ρ : Nat → RowRand) : AppState :=
  { store := generateSampleData today ρ,
    currentId := maxSeq (generateSampleData today ρ) + 1 }

/-- The session states the application can reach in one process run:
initialization, a successful submit, an assignment, and a dashboard
rendering (which converts the date column in place). -/
inductive Reach (today : Int) (ρ : Nat → RowRand) : AppState → Prop where
  | init : Reach today ρ (initState today ρ)
  | submit (st : AppState) (a : SubmitArgs) (st' : AppState) (y s : Nat) :
      Reach today ρ st → submitRequest st a = .ok (st', y, s) →
      Reach today ρ st'
  | assign (st : AppState) (y s : Nat) (rev : String) :
      Reach today ρ st →
      Reach today ρ
        { store := (assign_reviewer st.store y s rev).1, currentId := st.currentId }
  | dash (st : AppState) :
      Reach today ρ st →
      Reach today ρ { store := dashboardDateFix st.store, currentId := st.currentId }

/-- A successful submit returns the appended state, the year 2024 and the
pre-increment counter as the sequence. -/
theorem submitRequest_ok_shape (st : AppState) (a : SubmitArgs)
    (st' : AppState) (y s : Nat)
    (heq : submitRequest st a = .ok (st', y, s)) :
    st' = { store := st.store ++ [intakeRec st a], currentId := st.currentId + 1 } ∧
    y = 2024 ∧ s = st.currentId := by
  rw [submitRequest] at heq
  split at heq
  · simp at heq
  · split at heq
    · simp at heq
    · simp only [Except.ok.injEq, Prod.mk.injEq] at heq
      obtain ⟨h1, h2, h3⟩ := heq
      exact ⟨h1.symm, h2.symm, h3.symm⟩

/-- `maxSeq` over an appended list. -/
theorem maxSeq_append (l₁ l₂ : List Submission) :
    maxSeq (l₁ ++ l₂) = max (maxSeq l₁) (maxSeq l₂) := by
  induction l₁ with
  | nil => simp [maxSeq]
  | cons a t ih =>
    simp only [List.cons_append, maxSeq, List.foldr_cons] at *
    rw [ih]
    exact (Nat.max_assoc _ _ _).symm

/-- `maxSeq` is unchanged by a map that preserves sequence numbers. -/
theorem maxSeq_map_of_seq_preserved (f : Submission → Submission)
    (hf : ∀ r, (f r).submission_seq = r.submission_seq) (l : List Submission) :
    maxSeq (l.map f) = maxSeq l := by
  induction l with
  | nil => rfl
  | cons a t ih =>
    simp only [List.map_cons, maxSeq, List.foldr_cons] at *
    rw [ih, hf]

/-- The session invariant: `current_id` is one more than the maximal stored
sequence number, and every stored submission carries the year prefix
2024. -/
theorem reach_invariant (today : Int) (ρ : Nat → RowRand) (st : AppState)
    (h : Reach today ρ st) :
    st.currentId = maxSeq st.store + 1 ∧
    ∀ r ∈ st.store, r.submission_year = 2024 := by
  induction h with
  | init =>
    refine ⟨rfl, ?_⟩
    intro r hr
    simp only [initState, generateSampleData, List.mem_map] at hr
    obtain ⟨i, _, rfl⟩ := hr
    rfl
  | submit st a st' y s _ heq ih =>
    obtain ⟨hst', _, _⟩ := submitRequest_ok_shape st a st' y s heq
    subst hst'
    constructor
    · simp only [maxSeq_append]
      have : maxSeq [intakeRec st a] = st.currentId := by
        simp [maxSeq, intakeRec]
      rw [this, ih.1]
      omega
    · intro r hr
      rcases List.mem_append.mp hr with hr | hr
      · exact ih.2 r hr
      · rcases List.mem_singleton.mp hr with rfl
        rfl
  | assign st y s rev _ ih =>
    constructor
    · rw [ih.1, assign_reviewer]
      split
      · rw [maxSeq_map_of_seq_preserved]
        intro r
        split <;> rfl
      · rfl
    · intro r hr
      rw [assign_reviewer] at hr
      split at hr
      · simp only [List.mem_map] at hr
        obtain ⟨r₀, hr₀, rfl⟩ := hr
        have := ih.2 r₀ hr₀
        split <;> simpa
      · exact ih.2 r hr
  | dash st _ ih =>
    constructor
    · rw [ih.1, dashboardDateFix, maxSeq_map_of_seq_preserved]
      intro r
      rfl
    · intro r hr
      simp only [dashboardDateFix, List.mem_map] at hr
      obtain ⟨r₀, hr₀, rfl⟩ := hr
      exact ih.2 r₀ hr₀

/-- When every stored year is 2024, the year-scoped maximum at 2024 is the
global maximum. -/
theorem maxSeqInYear_eq_maxSeq (l : List Submission)
    (h : ∀ r ∈ l, r.submission_year = 2024) :
    maxSeqInYear 2024 l = maxSeq l := by
  unfold maxSeqInYear
  congr 1
  apply List.filter_eq_self.mpr
  intro r hr
  simp [h r hr]

/-- C6: in every reachable session state, a successful intake call assigns
an id whose sequence number is the maximal existing sequence number with
the id's year prefix plus one, and a second successful intake call right
after it returns a strictly larger sequence number. -/
theorem c6_intake_seq_monotonic (today : Int) (ρ : Nat → RowRand)
    (st : AppState) (h : Reach today ρ st) (a : SubmitArgs) (st' : AppState)
    (y s : Nat) (heq : submitRequest st a = .ok (st', y, s)) :
    s = maxSeqInYear y st.store + 1 ∧
    (∀ a2 st2 y2 s2, submitRequest st' a2 = .ok (st2, y2, s2) → s < s2) := by
  obtain ⟨hst', hy, hs⟩ := submitRequest_ok_shape st a st' y s heq
  obtain ⟨hinv, hyears⟩ := reach_invariant today ρ st h
  constructor
  · rw [hs, hy, maxSeqInYear_eq_maxSeq st.store hyears, hinv]
  · intro a2 st2 y2 s2 heq2
    obtain ⟨_, _, hs2⟩ := submitRequest_ok_shape st' a2 st2 y2 s2 heq2
    rw [hs2, hst', hs]
    exact Nat.lt_succ_self st.currentId

/-- C6 witness: the first conjunct at the freshly initialized state and a
concrete valid intake call. -/
theorem c6_intake_seq_monotonic_witness :
    (initState 0 (fun _ => rowRandPendingAssigned)).currentId =
      maxSeqInYear 2024 (initState 0 (fun _ => rowRandPendingAssigned)).store + 1 :=
  (c6_intake_seq_monotonic 0 (fun _ => rowRandPendingAssigned) _ Reach.init args0
    { store := (initState 0 (fun _ => rowRandPendingAssigned)).store ++
        [intakeRec (initState 0 (fun _ => rowRandPendingAssigned)) args0],
      currentId := (initState 0 (fun _ => rowRandPendingAssigned)).currentId + 1 }
    2024 (initState 0 (fun _ => rowRandPendingAssigned)).currentId rfl).1

/-- Sum of the `page_count` column over a row list. -/
def pagesOf (rows : List Submission) : Nat :=
  (rows.map (fun r => r.page_count)).sum

/-- The `pieces_data` list of the Compliance Trends tab (lines 401-408):
row counts for the trailing 90-day window and the 90-120-day window, each
floor-divided by 3, then the January and February calendar windows,
undivided. `today` is the day index of `datetime.now()` and `yearStart`
that of January 1. -/
def piecesData (today yearStart : Int) (rows : List Submission) : List Nat :=
  [(rows.filter (fun r => decide (today - 90 ≤ r.submission_date.day))).length / 3,
   (rows.filter (fun r => decide (today - 120 ≤ r.submission_date.day) &&
      decide (r.submission_date.day < today - 90))).length / 3,
   (rows.filter (fun r => decide (yearStart ≤ r.submission_date.day) &&
      decide (r.submission_date.day < yearStart + 31))).length,
   (rows.filter (fun r => decide (yearStart + 31 ≤ r.submission_date.day) &&
      decide (r.submission_date.day < yearStart + 59))).length]

/-- The `pages_data` list (lines 411-419): `page_count` sums per period,
the two trailing windows floor-divided by 3, the calendar windows not. -/
def pagesData (today yearStart : Int) (rows : List Submission) : List Nat :=
  [pagesOf (rows.filter (fun r => decide (today - 90 ≤ r.submission_date.day))) / 3,
   pagesOf (rows.filter (fun r => decide (today - 120 ≤ r.submission_date.day) &&
      decide (r.submission_date.day < today - 90))) / 3,
   pagesOf (rows.filter (fun r => decide (yearStart ≤ r.submission_date.day) &&
      decide (r.submission_date.day < yearStart + 31))),
   pagesOf (rows.filter (fun r => decide (yearStart + 31 ≤ r.submission_date.day) &&
      decide (r.submission_date.day < yearStart + 59)))]

/-- The `videos_data` list (lines 422-434): counts of rows with
`material_type = "Video"` per period, the two trailing windows
floor-divided by 3, the calendar windows not. -/
def videosData (today yearStart : Int) (rows : List Submission) : List Nat :=
  [(rows.filter (fun r => decide (today - 90 ≤ r.submission_date.day) &&
      decide (r.material_type = "Video"))).length / 3,
   (rows.filter (fun r => decide (today - 120 ≤ r.submission_date.day) &&
      decide (r.submission_date.day < today - 90) &&
      decide (r.material_type = "Video"))).length / 3,
   (rows.filter (fun r => decide (yearStart ≤ r.submission_date.day) &&
      decide (r.submission_date.day < yearStart + 31) &&
      decide (r.material_type = "Video"))).length,
   (rows.filter (fun r => decide (yearStart + 31 ≤ r.submission_date.day) &&
      decide (r.submission_date.day < yearStart + 59) &&
      decide (r.material_type = "Video"))).length]

/-- The four dashboard periods: the trailing 90-day window, the
90-120-days-ago window, and the two explicit calendar-month windows. -/
inductive MWindow where
  | q3
  | q4
  | jan
  | feb
deriving DecidableEq

/-- Membership of a row's submission date in a period. -/
def windowMember (today yearStart : Int) : MWindow → Submission → Bool
  | .q3, r => decide (today - 90 ≤ r.submission_date.day)
  | .q4, r => decide (today - 120 ≤ r.submission_date.day) &&
      decide (r.submission_date.day < today - 90)
  | .jan, r => decide (yearStart ≤ r.submission_date.day) &&
      decide (r.submission_date.day < yearStart + 31)
  | .feb, r => decide (yearStart + 31 ≤ r.submission_date.day) &&
      decide (r.submission_date.day < yearStart + 59)

/-- The rows of a period. -/
def windowRows (today yearStart : Int) (w : MWindow) (rows : List Submission) :
    List Submission :=
  rows.filter (windowMember today yearStart w)

/-- Piece count aggregate of a period. -/
def windowPieces (today yearStart : Int) (w : MWindow) (rows : List Submission) : Nat :=
  (windowRows today yearStart w rows).length

/-- Page sum aggregate of a period. -/
def windowPages (today yearStart : Int) (w : MWindow) (rows : List Submission) : Nat :=
  pagesOf (windowRows today yearStart w rows)

/-- Video count aggregate of a period. -/
def windowVideos (today yearStart : Int) (w : MWindow) (rows : List Submission) : Nat :=
  ((windowRows today yearStart w rows).filter
    (fun r => decide (r.material_type = "Video"))).length

/-- Lengths of filters with pointwise-equal predicates agree. -/
theorem filterLen (rows : List Submission) (p q : Submission → Bool)
    (h : ∀ a, p a = q a) : (rows.filter p).length = (rows.filter q).length :=
  congrArg List.length (List.filter_congr (fun a _ => h a))

/-- Floor-divided lengths of filters with pointwise-equal predicates
agree. -/
theorem filterLenDiv (rows : List Submission) (k : Nat)
    (p q : Submission → Bool) (h : ∀ a, p a = q a) :
    (rows.filter p).length / k = (rows.filter q).length / k := by
  rw [List.filter_congr (fun a _ => h a)]

/-- C9: for every store, the displayed piece counts, page sums and video
counts are the period aggregates floor-divided by 3 for the two trailing
quarterly windows, and the undivided period aggregates for the January
and February calendar windows. -/
theorem c9_quarterly_averaged_monthly_not (today yearStart : Int)
    (rows : List Submission) :
    piecesData today yearStart rows =
      [windowPieces today yearStart .q3 rows / 3,
       windowPieces today yearStart .q4 rows / 3,
       windowPieces today yearStart .jan rows,
       windowPieces today yearStart .feb rows] ∧
    pagesData today yearStart rows =
      [windowPages today yearStart .q3 rows / 3,
       windowPages today yearStart .q4 rows / 3,
       windowPages today yearStart .jan rows,
       windowPages today yearStart .feb rows] ∧
    videosData today yearStart rows =
      [windowVideos today yearStart .q3 rows / 3,
       windowVideos today yearStart .q4 rows / 3,
       windowVideos today yearStart .jan rows,
       windowVideos today yearStart .feb rows] := by
  refine ⟨rfl, rfl, ?_⟩
  simp only [videosData, windowVideos, windowRows, List.filter_filter, windowMember]
  refine congrArg₂ List.cons (filterLenDiv rows 3 _ _ ?_)
    (congrArg₂ List.cons (filterLenDiv rows 3 _ _ ?_)
      (congrArg₂ List.cons (filterLen rows _ _ ?_)
        (congrArg₂ List.cons (filterLen rows _ _ ?_) rfl))) <;>
    · intro a
      simp [Bool.and_comm, Bool.and_left_comm, Bool.and_assoc]
